import Mathlib

/-!
# PnL-Tracker: verification of the PnL accounting core

Shallow embedding of the PnL accounting code of the repository:

* `WalletTracker` (`src/unnamed/part_012`): trade construction
  (`processTrade`, `calculatePricePerToken`), holding updates
  (`updateHoldings`, `calculateAverageBuyPrice`), and the transfer
  processing loop (`processTokenTransfers`).
* `Database` (`src/unnamed/part_006`): the holdings table,
  `getHoldings` (filters `current_balance != '0'`), `getTradesSince`.
* `PnLCalculator` (`src/src/services/pnlCalculator.js`):
  `calculateTokenPnL`, `calculateComprehensivePnL`,
  `calculateDailyPnL`, `calculateWeeklyPnL`, `calculateROI`.

All monetary quantities are JavaScript `BigInt`s in the source; they are
embedded as `Int`.  JavaScript `BigInt` division truncates toward zero,
which is `Int.tdiv` in Lean.  The fixed-point scale
`BigInt(10 ** 18)` appearing throughout the source is `scale`.
Floating-point presentation fields (USD conversions, display strings)
are not part of the embedding; the claims are about the PLS-denominated
BigInt arithmetic.

A load-bearing fact of the source: `WalletTracker.updateHoldings` awaits
`this.db.db.get('SELECT * FROM holdings ...')` on the **raw
callback-style `sqlite3` handle with no callback**.  Unlike every other
database call in the repository (which wraps the handle in
`new Promise(...)` with a callback), this call returns the `Database`
object itself for chaining — not a promise and not a row — so awaiting
it yields the truthy handle, the `||`-default fresh-row object is dead
code, and the holding columns read as `undefined`.  Both branches then
begin with a `BigInt(column)` conversion (`BigInt(holding.totalBoughtPls)`
on BUY, `BigInt(holding.totalSoldPls)` on SELL), and
`BigInt(undefined)` throws a `TypeError`, so every call throws before
any row is read or written; `updateHoldings` rethrows and
`processTrade` catches and logs, after `insertTrade` has already
succeeded.  The holdings table is therefore never written by the trade
pipeline.  (Even under a promisified reading, a fetched row carries
snake_case column keys, so the existing-row branch would still throw.)
The embedding models `updateHoldings` as this always-failing operation;
the arithmetic its branches would perform on a well-formed row is kept
separately as `updateHoldingsDeadCode` for comparison.
-/

namespace PnLTracker

/-- The fixed-point scale `BigInt(10 ** 18)` used throughout the source. -/
def scale : Int := 10 ^ 18

/-- Trade direction, `trade_type` column: `'BUY'` or `'SELL'`. -/
inductive TradeType where
  | buy
  | sell
deriving DecidableEq, Repr

/-- A row of the `trades` table (`Database.insertTrade`), as built by
`WalletTracker.processTrade`. -/
structure Trade where
  tokenAddress : String
  tradeType : TradeType
  plsAmount : Int
  tokenAmount : Int
  pricePerTokenPls : Int
  timestamp : Int
deriving DecidableEq, Repr

/-- A row of the `holdings` table (one per token). -/
structure Holding where
  tokenAddress : String
  totalBoughtPls : Int
  totalSoldPls : Int
  currentBalance : Int
  averageBuyPricePls : Int
  firstBuyTimestamp : Option Int
  lastTradeTimestamp : Option Int
  tradeCount : Int
  realizedPnlPls : Int
deriving DecidableEq, Repr

/-- The default holding object created by `WalletTracker.updateHoldings`
when no row exists for the token yet. -/
def freshHolding (addr : String) (ts : Int) : Holding :=
  { tokenAddress := addr
    totalBoughtPls := 0
    totalSoldPls := 0
    currentBalance := 0
    averageBuyPricePls := 0
    firstBuyTimestamp := none
    lastTradeTimestamp := some ts
    tradeCount := 0
    realizedPnlPls := 0 }

/-- `WalletTracker.calculateAverageBuyPrice`:
`(totalBought * 10^18) / balance`, `0` when the balance is zero. -/
def calculateAverageBuyPrice (totalBoughtPls currentBalance : Int) : Int :=
  if currentBalance = 0 then 0
  else Int.tdiv (totalBoughtPls * scale) currentBalance

/-- `WalletTracker.calculatePricePerToken`:
`(plsAmount * 10^18) / tokenAmount`, `0` when the token amount is zero.
(The `tokenDecimals` parameter of the source function is unused in its
body.) -/
def calculatePricePerToken (plsAmount tokenAmount : Int) : Int :=
  if tokenAmount = 0 then 0
  else Int.tdiv (plsAmount * scale) tokenAmount

/-- The body of `WalletTracker.updateHoldings` applied to one holding
record: bump `tradeCount`/`lastTradeTimestamp`, then the `BUY` branch
(update totals and recompute the running average buy price) or the
`SELL` branch (update totals and realize `(sellPrice - avgBuyPrice) *
soldAmount / 10^18` against the running average). -/
def applyTradeToHolding (h : Holding) (t : Trade) : Holding :=
  let h := { h with tradeCount := h.tradeCount + 1
                    lastTradeTimestamp := some t.timestamp }
  match t.tradeType with
  | .buy =>
    let newTotalBought := h.totalBoughtPls + t.plsAmount
    let newTokenBalance := h.currentBalance + t.tokenAmount
    { h with totalBoughtPls := newTotalBought
             currentBalance := newTokenBalance
             firstBuyTimestamp :=
               match h.firstBuyTimestamp with
               | none => some t.timestamp
               | some x => some x
             averageBuyPricePls :=
               calculateAverageBuyPrice newTotalBought newTokenBalance }
  | .sell =>
    let newTotalSold := h.totalSoldPls + t.plsAmount
    let newTokenBalance := h.currentBalance - t.tokenAmount
    let realizedPnl :=
      Int.tdiv ((t.pricePerTokenPls - h.averageBuyPricePls) * t.tokenAmount) scale
    { h with totalSoldPls := newTotalSold
             currentBalance := newTokenBalance
             realizedPnlPls := h.realizedPnlPls + realizedPnl }

/-- Lookup of the holdings row for a token:
`SELECT * FROM holdings WHERE token_address = ?`. -/
def findHolding (hs : List Holding) (addr : String) : Option Holding :=
  hs.find? (fun h => h.tokenAddress == addr)

/-- `Database.updateHolding`: `INSERT OR REPLACE INTO holdings` —
replaces the row with the same `token_address` (the primary key), or
appends a new row. -/
def putHolding (hs : List Holding) (h : Holding) : List Holding :=
  if hs.any (fun x => x.tokenAddress == h.tokenAddress) then
    hs.map (fun x => if x.tokenAddress == h.tokenAddress then h else x)
  else hs ++ [h]

/-- The fetch-apply-write the body of `WalletTracker.updateHoldings`
**would** perform if the row fetch worked: fetch the current row for
the trade's token (or the default fresh object), apply the trade, and
write the result back.  This is dead code in the program — the actual
fetch misuse makes every call throw first (see `updateHoldings`) — and
is kept only for comparison (e.g. the spec-side replay below). -/
def updateHoldingsDeadCode (hs : List Holding) (t : Trade) : List Holding :=
  let current := (findHolding hs t.tokenAddress).getD
    (freshHolding t.tokenAddress t.timestamp)
  putHolding hs (applyTradeToHolding current t)

/-- A JavaScript exception relevant to the embedding. -/
inductive JsError where
  | typeError
deriving DecidableEq, Repr

/-- `BigInt(v)` for a possibly-`undefined` JavaScript value: converting
`undefined` throws a `TypeError`. -/
def jsBigInt : Option Int → Except JsError Int
  | some n => Except.ok n
  | none => Except.error JsError.typeError

/-- `WalletTracker.updateHoldings` as the program executes it.
`currentHolding` is the truthy `sqlite3` handle (the callback-style
`get` is awaited without a callback and returns the `Database` object),
so the `||`-default fresh row is dead code and every holding column on
`holding` reads as `undefined`.  The `BUY` branch then evaluates
`BigInt(holding.totalBoughtPls)` and the `SELL` branch
`BigInt(holding.totalSoldPls)` — both `BigInt(undefined)`, which
throws before any arithmetic or `db.updateHolding` write.  The
continuation after the throwing conversion is unreachable; it is closed
with the dead-code update so the expression is total — the `bind`
short-circuits on the error, so no behavior depends on it. -/
def updateHoldings (hs : List Holding) (t : Trade) :
    Except JsError (List Holding) :=
  match t.tradeType with
  | .buy =>
    (jsBigInt none).bind fun _ => Except.ok (updateHoldingsDeadCode hs t)
  | .sell =>
    (jsBigInt none).bind fun _ => Except.ok (updateHoldingsDeadCode hs t)

/-- The database state touched by the trade pipeline: the `trades` table
and the `holdings` table. -/
structure DBState where
  trades : List Trade
  holdings : List Holding
deriving DecidableEq, Repr

/-- A raw token-transfer record as consumed by
`WalletTracker.processTokenTransfers` / `processTrade`, together with
the result of the external lookup `findCorrespondingPlsAmount`
(an on-chain query; its result is an input of the embedding, `none`
when the lookup fails). All addresses are lowercased, as the source
lowercases them on entry. -/
structure RawTransfer where
  hash : String
  sender : String
  receiver : String
  contractAddress : String
  value : Int
  timestamp : Int
  blockNumber : Int
  plsLookup : Option Int
deriving DecidableEq, Repr

/-- The trade row `WalletTracker.processTrade` builds from a transfer
and the looked-up PLS amount: direction from the token-flow direction
relative to the tracked wallet, unit price from
`calculatePricePerToken`. -/
def tradeOf (wallet : String) (tr : RawTransfer) (plsAmount : Int) : Trade :=
  { tokenAddress := tr.contractAddress
    tradeType := if tr.receiver = wallet then TradeType.buy else TradeType.sell
    plsAmount := plsAmount
    tokenAmount := tr.value
    pricePerTokenPls := calculatePricePerToken plsAmount tr.value
    timestamp := tr.timestamp }

/-- `WalletTracker.processTrade`: obtain the PLS amount from the
external lookup and bail out when it is `null` or `0n`
(`if (!plsAmount) return` — `0n` is falsy).  Otherwise insert the trade
row (`await this.db.insertTrade(trade)` succeeds first), then attempt
`updateHoldings`; its throw is caught by `processTrade`'s
`try`/`catch`, so the holdings table keeps its prior contents. -/
def processTrade (wallet : String) (tr : RawTransfer) (st : DBState) : DBState :=
  match tr.plsLookup with
  | none => st
  | some plsAmount =>
    if plsAmount = 0 then st
    else
      let trade := tradeOf wallet tr plsAmount
      let afterInsert : DBState :=
        { trades := st.trades ++ [trade], holdings := st.holdings }
      match updateHoldings afterInsert.holdings trade with
      | Except.ok hs => { afterInsert with holdings := hs }
      | Except.error _ => afterInsert

/-- `WalletTracker.isTradeTransaction`: the transfer touches one of the
known DEX router addresses. -/
def isTradeTransaction (routers : List String) (tr : RawTransfer) : Bool :=
  routers.contains tr.receiver || routers.contains tr.sender

/-- The trade-relevant part of `WalletTracker.processTokenTransfers`:
iterate over the transfers **in the order given** (there is no sorting
step in the source), skip any transfer older than the tracking start
(`if (parseInt(transfer.timeStamp) < this.trackingStartDate.unix())
continue`), and run `processTrade` on each remaining transfer that
looks like a DEX trade. (The insertion into the raw `transactions`
table and the token-metadata fetch carry no PnL state and are
omitted.) -/
def processTokenTransfers (wallet : String) (routers : List String)
    (trackingStart : Int) (transfers : List RawTransfer) (st : DBState) :
    DBState :=
  transfers.foldl
    (fun acc tr =>
      if tr.timestamp < trackingStart then acc
      else if isTradeTransaction routers tr then processTrade wallet tr acc
      else acc)
    st

/-- The trade row `processTrade` inserts for a transfer, when it
inserts one (`none` when the PLS lookup is `null` or `0n`). -/
def tradeIfAccepted (wallet : String) (tr : RawTransfer) : Option Trade :=
  match tr.plsLookup with
  | none => none
  | some plsAmount =>
    if plsAmount = 0 then none else some (tradeOf wallet tr plsAmount)

/-- The trade row the transfer loop inserts for a transfer, when it
inserts one: the transfer must be inside the tracking period, touch a
DEX router, and pass `processTrade`'s PLS-amount check. -/
def acceptedTrade (wallet : String) (routers : List String)
    (trackingStart : Int) (tr : RawTransfer) : Option Trade :=
  if tr.timestamp < trackingStart then none
  else if isTradeTransaction routers tr then tradeIfAccepted wallet tr
  else none


/-- `Database.getHoldings`: `SELECT ... FROM holdings ... WHERE
h.current_balance != '0'`. Balances are canonical `BigInt.toString`
values, so the string comparison is a value comparison with `0`.
(The `ORDER BY last_trade_timestamp DESC` clause and the join with the
`tokens` metadata table only affect presentation and are omitted.) -/
def getHoldings (hs : List Holding) : List Holding :=
  hs.filter (fun h => h.currentBalance != 0)

/-- `Database.getTradesSince`: `WHERE t.timestamp >= ?`. -/
def getTradesSince (trades : List Trade) (ts : Int) : List Trade :=
  trades.filter (fun t => ts ≤ t.timestamp)

/-- `PnLCalculator.calculateDailyPnL`: over the trades since the start
of the day, add the PLS received for each `SELL` and subtract the PLS
spent for each `BUY`. -/
def calculateDailyPnL (trades : List Trade) (startOfDay : Int) : Int :=
  (getTradesSince trades startOfDay).foldl
    (fun acc t =>
      match t.tradeType with
      | .sell => acc + t.plsAmount
      | .buy => acc - t.plsAmount)
    0

/-- `PnLCalculator.calculateWeeklyPnL`: same accumulation as
`calculateDailyPnL` over the trades since the start of the week. -/
def calculateWeeklyPnL (trades : List Trade) (startOfWeek : Int) : Int :=
  (getTradesSince trades startOfWeek).foldl
    (fun acc t =>
      match t.tradeType with
      | .sell => acc + t.plsAmount
      | .buy => acc - t.plsAmount)
    0

/-- A row of `Database.getLatestPrices`. `pricePls` embeds the value
`BigInt(Math.floor(parseFloat(price_pls || 0) * 1e18))` the calculator
derives from the row, i.e. the token price in PLS at scale `10^18`. -/
structure PriceEntry where
  tokenAddress : String
  pricePls : Int
deriving DecidableEq, Repr

/-- `currentPrices.find(p => p.token_address === holding.token_address)`
followed by `tokenPrice ? parseFloat(tokenPrice.price_pls || 0) : 0`:
a missing row yields price `0`. -/
def currentTokenPricePls (ps : List PriceEntry) (addr : String) : Int :=
  match ps.find? (fun p => p.tokenAddress == addr) with
  | some p => p.pricePls
  | none => 0

/-- The PLS-denominated numeric fields of the per-token analysis object
returned by `PnLCalculator.calculateTokenPnL`. -/
structure TokenAnalysis where
  tokenAddress : String
  tradeCount : Int
  currentBalanceRaw : Int
  realizedPnlPls : Int
  unrealizedPnlPls : Int
  totalPnlPls : Int
  realizedPercentage : Int
  unrealizedPercentage : Int
  totalPercentage : Int
deriving DecidableEq, Repr

/-- `PnLCalculator.calculateTokenPnL` (the later, effective definition
in the class body, lines 341-418): current value and cost basis from
the stored balance and lifetime `average_buy_price_pls`, unrealized PnL
as their difference, realized PnL read from the stored
`realized_pnl_pls`, and the three guarded percentage returns.
(The USD conversions and display strings are floating-point
presentation and are not embedded.) -/
def calculateTokenPnL (ps : List PriceEntry) (h : Holding) : TokenAnalysis :=
  let priceScaled := currentTokenPricePls ps h.tokenAddress
  let currentValuePls := Int.tdiv (h.currentBalance * priceScaled) scale
  let costBasis := Int.tdiv (h.currentBalance * h.averageBuyPricePls) scale
  let unrealizedPnlPls := currentValuePls - costBasis
  let realizedPnlPls := h.realizedPnlPls
  let totalInvested := h.totalBoughtPls
  { tokenAddress := h.tokenAddress
    tradeCount := h.tradeCount
    currentBalanceRaw := h.currentBalance
    realizedPnlPls := realizedPnlPls
    unrealizedPnlPls := unrealizedPnlPls
    totalPnlPls := realizedPnlPls + unrealizedPnlPls
    realizedPercentage :=
      if 0 < totalInvested then Int.tdiv (realizedPnlPls * 100) totalInvested
      else 0
    unrealizedPercentage :=
      if 0 < costBasis then Int.tdiv (unrealizedPnlPls * 100) costBasis
      else 0
    totalPercentage :=
      if 0 < totalInvested then
        Int.tdiv ((realizedPnlPls + unrealizedPnlPls) * 100) totalInvested
      else 0 }

/-- The PLS-denominated fields of the results object built by
`PnLCalculator.calculateComprehensivePnL`. -/
structure PortfolioReport where
  totalRealizedPnlPls : Int
  totalUnrealizedPnlPls : Int
  dailyPnlPls : Int
  weeklyPnlPls : Int
  activePositions : Nat
  totalTrades : Int
  tokenAnalysis : List TokenAnalysis
deriving DecidableEq, Repr

/-- The database snapshot read by one computation cycle: the `holdings`
and `trades` tables and the latest-price rows. -/
structure DBSnapshot where
  holdingsTable : List Holding
  tradesTable : List Trade
  prices : List PriceEntry
deriving DecidableEq, Repr

/-- `PnLCalculator.calculateComprehensivePnL`: fetch the holdings with
nonzero balance (`Database.getHoldings`), analyse each one, accumulate
the realized/unrealized totals and trade count over those analyses,
set `activePositions` to the number of fetched holdings, and attach the
daily/weekly windowed sums. `startOfDay`/`startOfWeek` are the
`moment().startOf(...)` values, inputs of the embedding. -/
def calculateComprehensivePnL (db : DBSnapshot)
    (startOfDay startOfWeek : Int) : PortfolioReport :=
  let holdings := getHoldings db.holdingsTable
  let analyses := holdings.map (calculateTokenPnL db.prices)
  { totalRealizedPnlPls := analyses.foldl (fun a x => a + x.realizedPnlPls) 0
    totalUnrealizedPnlPls :=
      analyses.foldl (fun a x => a + x.unrealizedPnlPls) 0
    dailyPnlPls := calculateDailyPnL db.tradesTable startOfDay
    weeklyPnlPls := calculateWeeklyPnL db.tradesTable startOfWeek
    activePositions := holdings.length
    totalTrades := analyses.foldl (fun a x => a + x.tradeCount) 0
    tokenAnalysis := analyses }

/-- One computation cycle as a state transformer: the source's
`calculateComprehensivePnL` issues only `SELECT`s against the database,
so the cycle returns the report together with the (unchanged) snapshot. -/
def computeCycle (db : DBSnapshot) (startOfDay startOfWeek : Int) :
    PortfolioReport × DBSnapshot :=
  (calculateComprehensivePnL db startOfDay startOfWeek, db)

/-- One full cycle as the program can run it: process the transfers
into a fresh database, then compute the report over the resulting
tables and a price snapshot. -/
def pipelineReport (wallet : String) (routers : List String)
    (trackingStart : Int) (transfers : List RawTransfer)
    (ps : List PriceEntry) (d w : Int) : PortfolioReport :=
  let st := processTokenTransfers wallet routers trackingStart transfers
    ⟨[], []⟩
  calculateComprehensivePnL ⟨st.holdings, st.trades, ps⟩ d w

/-- `PnLCalculator.calculateROI`: guarded percentage return, on the
rationals (the source computes it in floating point via `parseFloat`;
the guard and the zero result are exact). -/
def calculateROI (initialInvestment currentValue : ℚ) : ℚ :=
  if initialInvestment = 0 then 0
  else (currentValue - initialInvestment) / initialInvestment * 100

/-- Following the spec's words for the replay clause of the idempotency
claim ("Replays the full event list into fresh Position state each
call"): fold the full trade list into an empty holdings table using the
position-update arithmetic. Declared only to compare the code's report
against a genuine replay. -/
def specReplayHoldings (trades : List Trade) : List Holding :=
  trades.foldl updateHoldingsDeadCode []

/-- The total realized PnL a genuine replay of the event history would
produce (spec-side definition, comparison only). -/
def specReplayRealizedTotal (trades : List Trade) : Int :=
  (specReplayHoldings trades).foldl (fun a h => a + h.realizedPnlPls) 0

/-! ## Concrete scenario inputs

Unit prices in the scenarios below are expressed at the source's scale:
a unit price of `1.0` PLS per token is `10^18`.  Token amounts and PLS
amounts are plain integers, so `calculatePricePerToken q a` yields the
scaled unit price `q/a * 10^18`. -/

/-- Buy 100 units for 200 PLS (unit price `2.0`). -/
def buy100At2 : Trade :=
  ⟨"tok", .buy, 200, 100, calculatePricePerToken 200 100, 2⟩

/-- Sell 10 units for 30 PLS (unit price `3.0`). -/
def sell10At3 : Trade :=
  ⟨"tok", .sell, 30, 10, calculatePricePerToken 30 10, 6⟩

/-- A price snapshot where `"tok"` trades at `5.0` PLS. -/
def priceTokAt5 : List PriceEntry := [⟨"tok", 5 * 10 ^ 18⟩]

/-- A holdings row as stored after some trading: balance 100, lifetime
average buy price `2.0`, 400 PLS invested. -/
def heldHolding : Holding :=
  { tokenAddress := "tok"
    totalBoughtPls := 400
    totalSoldPls := 0
    currentBalance := 100
    averageBuyPricePls := 2 * 10 ^ 18
    firstBuyTimestamp := some 1
    lastTradeTimestamp := some 2
    tradeCount := 2
    realizedPnlPls := 0 }

/-- A holdings row of a fully-sold (closed) position carrying realized
PnL `999`. -/
def closedHolding : Holding :=
  { tokenAddress := "tok"
    totalBoughtPls := 100
    totalSoldPls := 300
    currentBalance := 0
    averageBuyPricePls := 10 ^ 18
    firstBuyTimestamp := some 1
    lastTradeTimestamp := some 2
    tradeCount := 4
    realizedPnlPls := 999 }

/-- A holdings row inconsistent with an empty trades table: stored
realized PnL `7`, balance `1`. -/
def staleHolding : Holding :=
  { tokenAddress := "tok"
    totalBoughtPls := 10
    totalSoldPls := 5
    currentBalance := 1
    averageBuyPricePls := 10 ^ 18
    firstBuyTimestamp := some 1
    lastTradeTimestamp := some 2
    tradeCount := 3
    realizedPnlPls := 7 }

/-- An incoming (buy) transfer of 100 `"tok"` from a DEX router to the
tracked wallet `"w"`, for 100 PLS, at timestamp 10. -/
def transferBuy : RawTransfer :=
  ⟨"h1", "router", "w", "tok", 100, 10, 1, some 100⟩

/-- An outgoing (sell) transfer of 100 `"tok"` from the tracked wallet
`"w"` to a DEX router, for 200 PLS, at timestamp 20. -/
def transferSell : RawTransfer :=
  ⟨"h2", "w", "router", "tok", 100, 20, 2, some 200⟩

/-- A transfer whose token amount parses to zero, with a positive PLS
amount. -/
def transferZeroToken : RawTransfer :=
  ⟨"h3", "router", "w", "tok", 0, 10, 1, some 5⟩

/-- A self-transfer of the tracked wallet (from == to == wallet). -/
def transferSelf : RawTransfer :=
  ⟨"h4", "w", "w", "tok", 50, 10, 1, some 5⟩

/-- A transfer whose external PLS lookup yields `0n` (falsy). -/
def transferZeroPls : RawTransfer :=
  ⟨"h5", "router", "w", "tok", 7, 10, 1, some 0⟩

/-- Incoming transfer: buy 100 `"tok"` for 100 PLS (unit price 1.0),
timestamp 1. -/
def trBuy1 : RawTransfer :=
  ⟨"hb1", "router", "w", "tok", 100, 1, 1, some 100⟩

/-- Incoming transfer: buy 100 `"tok"` for 200 PLS (unit price 2.0),
timestamp 2. -/
def trBuy2 : RawTransfer :=
  ⟨"hb2", "router", "w", "tok", 100, 2, 2, some 200⟩

/-- Incoming transfer: buy 100 `"tok"` for 300 PLS (unit price 3.0),
timestamp 3. -/
def trBuy3 : RawTransfer :=
  ⟨"hb3", "router", "w", "tok", 100, 3, 3, some 300⟩

/-- Outgoing transfer: sell 150 `"tok"` for 450 PLS (unit price 3.0),
timestamp 4. -/
def trSell150 : RawTransfer :=
  ⟨"hs1", "w", "router", "tok", 150, 4, 4, some 450⟩

/-- Outgoing transfer: sell 100 `"tok"` for 400 PLS (unit price 4.0),
timestamp 5. -/
def trSell100 : RawTransfer :=
  ⟨"hs2", "w", "router", "tok", 100, 5, 5, some 400⟩

/-- Outgoing transfer: sell 10 `"tok"` for 30 PLS (unit price 3.0) with
no prior buys — the spec's over-sell scenario. -/
def trOversell : RawTransfer :=
  ⟨"hs3", "w", "router", "tok", 10, 6, 6, some 30⟩

/-- The database state after running the spec's FIFO scenario — buy
100 @ 1.0, buy 100 @ 2.0, sell 150 @ 3.0 — through the real transfer
pipeline. -/
def fifoPipelineState : DBState :=
  processTokenTransfers "w" ["router"] 0 [trBuy1, trBuy2, trSell150]
    ⟨[], []⟩

/-- The database state after running the spec's remaining-lot scenario
— buy 100 @ 1.0, buy 100 @ 3.0, sell 100 — through the real transfer
pipeline. -/
def lotPipelineState : DBState :=
  processTokenTransfers "w" ["router"] 0 [trBuy1, trBuy3, trSell100]
    ⟨[], []⟩

/-- The PLS received by `SELL` trades with timestamp in the window
`[start, ∞)` (the code's windows have no upper bound). -/
def sellFlowSince (trades : List Trade) (start : Int) : Int :=
  (((getTradesSince trades start).filter
    (fun t => t.tradeType == TradeType.sell)).map (fun t => t.plsAmount)).sum

/-- The PLS spent by `BUY` trades with timestamp in the window
`[start, ∞)`. -/
def buyFlowSince (trades : List Trade) (start : Int) : Int :=
  (((getTradesSince trades start).filter
    (fun t => t.tradeType == TradeType.buy)).map (fun t => t.plsAmount)).sum

/-! ## Theorems -/

/-- JavaScript `BigInt` division truncates toward zero; so does
`Int.tdiv`, used throughout the embedding. -/
example : Int.tdiv (-7) 2 = -3 ∧ Int.tdiv 7 2 = 3 := by decide

/-- C1 (counterexample): running the spec's FIFO scenario — buys of
100 @ 1.0 then 100 @ 2.0 followed by a sell of 150 @ 3.0 — through the
real pipeline inserts three trade rows but produces **no** position
state at all: every `updateHoldings` call throws before writing, so the
holdings table stays empty and no realized PnL of `250` (nor any other)
exists anywhere. -/
theorem fifoScenario_yields_no_position :
    fifoPipelineState.holdings = [] ∧
    fifoPipelineState.trades.length = 3 ∧
    ¬ fifoPipelineState.holdings.map (fun h => h.realizedPnlPls) = [250] := by
  refine ⟨by decide, by decide, by decide⟩

/-- C3 (counterexample): buy 100 @ 1.0, buy 100 @ 3.0, sell 100 through
the real pipeline; at current price 5.0 the report contains no position
for the token at all (the holdings update throws on every trade), so no
unrealized PnL of `200` — nor any other value — is ever reported. -/
theorem lotScenario_reports_no_unrealized :
    (calculateComprehensivePnL
      ⟨lotPipelineState.holdings, lotPipelineState.trades, priceTokAt5⟩ 0
        0).tokenAnalysis = [] ∧
    (calculateComprehensivePnL
      ⟨lotPipelineState.holdings, lotPipelineState.trades, priceTokAt5⟩ 0
        0).totalUnrealizedPnlPls = 0 ∧
    ¬ ((calculateComprehensivePnL
      ⟨lotPipelineState.holdings, lotPipelineState.trades, priceTokAt5⟩ 0
        0).tokenAnalysis.map (fun a => a.unrealizedPnlPls)) = [200] := by
  refine ⟨by decide, by decide, by decide⟩

/-- C4 (counterexample): selling 10 units at 3.0 with zero prior buys
creates no holdings row whatsoever — `updateHoldings` throws and the
error is caught — so the position's balance is neither clamped to `0`
nor set to anything, and no realized PnL of `30` is recorded. -/
theorem oversell_no_row_no_clamp :
    (processTrade "w" trOversell ⟨[], []⟩).holdings = [] ∧
    ¬ ((processTrade "w" trOversell ⟨[], []⟩).holdings.map
        (fun h => h.currentBalance)) = [0] ∧
    ¬ ((processTrade "w" trOversell ⟨[], []⟩).holdings.map
        (fun h => h.realizedPnlPls)) = [30] := by
  refine ⟨by decide, by decide, by decide⟩

/-- C5 (counterexample): a holding with balance 100 and average buy
price 2.0 whose token has no price row is valued at price `0`: the code
reports unrealized PnL `-200` (the full cost basis as a loss), not `0`,
and this value flows into the aggregate total. -/
theorem priceUnavailable_reported_as_loss :
    (calculateTokenPnL [] heldHolding).unrealizedPnlPls = -200 ∧
    (calculateComprehensivePnL ⟨[heldHolding], [], []⟩ 0 0).totalUnrealizedPnlPls
      = -200 ∧
    ¬ (calculateTokenPnL [] heldHolding).unrealizedPnlPls = 0 := by
  refine ⟨by decide, by decide, by decide⟩

/-- C6 (counterexample): a single in-window BUY (200 PLS at timestamp
2, window start 0) makes the daily PnL `-200`; the claim's rule — sum
the realized contributions of in-window Sell events only — would give
`0` since there is no sell at all. -/
theorem dailyPnL_counts_buys :
    calculateDailyPnL [buy100At2] 0 = -200 ∧ ¬ (-200 : Int) = 0 := by
  refine ⟨by decide, by decide⟩

/-- C7 (counterexample): even the already-sorted input `[transferBuy,
transferSell]` (timestamps 10 < 20) is not replayed into position
state: its report carries zero realized PnL and an empty position list,
while a genuine replay of the two inserted trade rows would realize
`100` — there is no internal sort-then-replay and no FIFO outcome for
caller order to affect. -/
theorem sorted_input_not_replayed :
    (pipelineReport "w" ["router"] 0 [transferBuy, transferSell]
      priceTokAt5 0 0).totalRealizedPnlPls = 0 ∧
    (pipelineReport "w" ["router"] 0 [transferBuy, transferSell]
      priceTokAt5 0 0).tokenAnalysis = [] ∧
    specReplayRealizedTotal
      (processTokenTransfers "w" ["router"] 0 [transferBuy, transferSell]
        ⟨[], []⟩).trades = 100 ∧
    ¬ (0 : Int) = 100 := by
  refine ⟨by decide, by decide, by decide, by decide⟩

/-- C8 (counterexample): a raw transfer whose token amount parses to
`0` (with PLS amount 5) is **not** rejected: `processTrade` inserts a
trade row for it (with `pricePerTokenPls = 0`), so a trade event is
produced, contrary to the claim. -/
theorem zeroTokenAmount_still_inserts_trade :
    (processTrade "w" transferZeroToken ⟨[], []⟩).trades =
      [⟨"tok", TradeType.buy, 5, 0, 0, 10⟩] ∧
    ¬ (processTrade "w" transferZeroToken ⟨[], []⟩).trades = [] := by
  refine ⟨by decide, by decide⟩

/-- C2 (counterexample): the computation does not replay the event
history into fresh position state — with an empty trades table but a
stored holdings row carrying realized PnL `7`, the report's realized
total is `7`, while a genuine replay of the (empty) event list yields
`0`. -/
theorem report_not_a_replay :
    (calculateComprehensivePnL ⟨[staleHolding], [], []⟩ 0 0).totalRealizedPnlPls
      = 7 ∧
    specReplayRealizedTotal [] = 0 ∧ ¬ (7 : Int) = 0 := by
  refine ⟨by decide, by decide, by decide⟩

/-- C2 (amended): a computation cycle only reads the database snapshot:
it leaves the state unchanged, and a second cycle run on the state left
by the first produces the identical report — recomputation over an
identical snapshot is idempotent, though not by replaying the event
history (see the counterexample). -/
theorem computeCycle_stateless (db : DBSnapshot) (d w : Int) :
    (computeCycle db d w).2 = db ∧
    (computeCycle (computeCycle db d w).2 d w).1 = (computeCycle db d w).1 :=
  ⟨rfl, rfl⟩

/-- Helper: `updateHoldings` throws the `BigInt(undefined)` `TypeError`
on every input — the row fetch misuse makes both branches fail at their
first conversion, before any read or write of holdings state. -/
theorem updateHoldings_eq_error (hs : List Holding) (t : Trade) :
    updateHoldings hs t = Except.error JsError.typeError := by
  rcases t with ⟨ta, ty, q, a, p, ts⟩
  cases ty <;> rfl

/-- Helper: `processTrade` never changes the holdings table — the
`updateHoldings` throw is caught after the trade-row insert. -/
theorem processTrade_holdings (wallet : String) (tr : RawTransfer)
    (st : DBState) : (processTrade wallet tr st).holdings = st.holdings := by
  unfold processTrade
  cases h : tr.plsLookup with
  | none => rfl
  | some p =>
    by_cases hp : p = 0
    · simp [hp]
    · simp [hp, updateHoldings_eq_error]

/-- Helper: the trades table after `processTrade` is the old table plus
the accepted trade row, if any. -/
theorem processTrade_trades (wallet : String) (tr : RawTransfer)
    (st : DBState) :
    (processTrade wallet tr st).trades =
      st.trades ++ (tradeIfAccepted wallet tr).toList := by
  unfold processTrade tradeIfAccepted
  cases h : tr.plsLookup with
  | none => simp
  | some p =>
    by_cases hp : p = 0
    · simp [hp]
    · simp [hp, updateHoldings_eq_error]

/-- Helper: the whole transfer loop never changes the holdings table. -/
theorem processTokenTransfers_holdings (wallet : String)
    (routers : List String) (start : Int) (transfers : List RawTransfer)
    (st : DBState) :
    (processTokenTransfers wallet routers start transfers st).holdings =
      st.holdings := by
  induction transfers generalizing st with
  | nil => rfl
  | cons tr ts ih =>
    have hstep : processTokenTransfers wallet routers start (tr :: ts) st =
        processTokenTransfers wallet routers start ts
          (if tr.timestamp < start then st
           else if isTradeTransaction routers tr then processTrade wallet tr st
           else st) := rfl
    rw [hstep, ih]
    split_ifs <;> simp [processTrade_holdings]

/-- Helper: the trades table after the transfer loop is the old table
plus the accepted trade rows, in input order. -/
theorem processTokenTransfers_trades (wallet : String)
    (routers : List String) (start : Int) (transfers : List RawTransfer)
    (st : DBState) :
    (processTokenTransfers wallet routers start transfers st).trades =
      st.trades ++
        transfers.filterMap (acceptedTrade wallet routers start) := by
  induction transfers generalizing st with
  | nil => simp [processTokenTransfers]
  | cons tr ts ih =>
    have hstep : processTokenTransfers wallet routers start (tr :: ts) st =
        processTokenTransfers wallet routers start ts
          (if tr.timestamp < start then st
           else if isTradeTransaction routers tr then processTrade wallet tr st
           else st) := rfl
    rw [hstep, ih, List.filterMap_cons]
    by_cases h1 : tr.timestamp < start
    · simp [acceptedTrade, h1]
    · by_cases h2 : isTradeTransaction routers tr
      · cases hta : tradeIfAccepted wallet tr with
        | none =>
          simp [acceptedTrade, h1, h2, hta, processTrade_trades wallet tr st]
        | some b =>
          simp [acceptedTrade, h1, h2, hta, processTrade_trades wallet tr st]
      · simp [acceptedTrade, h1, h2]

/-- C4 (amended): a Sell that exceeds the tracked buys — like every
other trade — changes no position state at all: the trade row is
inserted, then `updateHoldings` throws and the error is caught, so no
holdings row is created or modified; nothing is realized, there is no
anomaly flag, and there is no balance to clamp. -/
theorem oversell_leaves_no_position (wallet : String) (tr : RawTransfer)
    (st : DBState) (p : Int) (hp : tr.plsLookup = some p) (hp0 : ¬ p = 0)
    (hout : ¬ tr.receiver = wallet) :
    (processTrade wallet tr st).trades = st.trades ++ [tradeOf wallet tr p] ∧
    (tradeOf wallet tr p).tradeType = TradeType.sell ∧
    (processTrade wallet tr st).holdings = st.holdings := by
  refine ⟨?_, ?_, processTrade_holdings wallet tr st⟩
  · rw [processTrade_trades]
    simp [tradeIfAccepted, hp, hp0]
  · simp [tradeOf, hout]

/-- C4 (witness): the spec's over-sell scenario — selling 10 units at
3.0 with zero prior buys — appends exactly one SELL trade row and
leaves the (empty) holdings table empty. -/
theorem oversell_leaves_no_position_witness :
    (processTrade "w" trOversell ⟨[], []⟩).trades =
      [] ++ [tradeOf "w" trOversell 30] ∧
    (tradeOf "w" trOversell 30).tradeType = TradeType.sell ∧
    (processTrade "w" trOversell ⟨[], []⟩).holdings = [] :=
  oversell_leaves_no_position "w" trOversell ⟨[], []⟩ 30 rfl (by decide)
    (by decide)

/-- C3 (amended): the pipeline never produces any position, so the
scenario's position (and its unrealized PnL) never exists in a report;
and for a holdings row present in the table, `calculateTokenPnL`
computes unrealized PnL from the stored balance and the stored lifetime
`average_buy_price_pls` — there is no lot queue and no remaining-lot
average anywhere. -/
theorem unrealized_formula_and_no_pipeline_positions :
    (∀ (wallet : String) (routers : List String) (start : Int)
        (transfers : List RawTransfer) (st : DBState),
      (processTokenTransfers wallet routers start transfers st).holdings =
        st.holdings) ∧
    (∀ (ps : List PriceEntry) (h : Holding),
      (calculateTokenPnL ps h).unrealizedPnlPls =
        Int.tdiv (h.currentBalance * currentTokenPricePls ps h.tokenAddress)
          scale -
        Int.tdiv (h.currentBalance * h.averageBuyPricePls) scale) :=
  ⟨processTokenTransfers_holdings, fun _ _ => rfl⟩

/-- C10: a fully-sold position (`current_balance = 0`) is filtered out
by `Database.getHoldings`, so the comprehensive report is unchanged by
its presence: its realized PnL contributes nothing to
`totalRealizedPnlPls` and it is not counted in `activePositions`. -/
theorem closedPosition_contributes_nothing (h : Holding) (hs : List Holding)
    (trades : List Trade) (ps : List PriceEntry) (d w : Int)
    (hb : h.currentBalance = 0) :
    calculateComprehensivePnL ⟨h :: hs, trades, ps⟩ d w =
      calculateComprehensivePnL ⟨hs, trades, ps⟩ d w := by
  simp [calculateComprehensivePnL, getHoldings, List.filter_cons, hb]

/-- C10 (witness): a closed position with stored realized PnL `999`
yields the same (empty) report as an empty holdings table. -/
theorem closedPosition_contributes_nothing_witness :
    calculateComprehensivePnL ⟨[closedHolding], [], []⟩ 0 0 =
      calculateComprehensivePnL ⟨[], [], []⟩ 0 0 :=
  closedPosition_contributes_nothing closedHolding [] [] [] 0 0 rfl

/-- C1 (amended): no matching against lots (or anything else) ever
happens: `updateHoldings` throws the `BigInt(undefined)` `TypeError` on
every input, `processTrade` catches it after the trade row was already
inserted, so the trades table grows while the holdings table — the only
position state — is never written. -/
theorem updateHoldings_always_throws (hs : List Holding) (t : Trade)
    (wallet : String) (tr : RawTransfer) (st : DBState) :
    updateHoldings hs t = Except.error JsError.typeError ∧
    (processTrade wallet tr st).holdings = st.holdings ∧
    (processTrade wallet tr st).trades =
      st.trades ++ (tradeIfAccepted wallet tr).toList :=
  ⟨updateHoldings_eq_error hs t, processTrade_holdings wallet tr st,
    processTrade_trades wallet tr st⟩

/-- Accumulation lemma for the windowed-PnL loop: folding the
sell-plus/buy-minus step over any trade list equals the start value
plus the sells' PLS total minus the buys' PLS total. -/
theorem netFlow_foldl (l : List Trade) (acc : Int) :
    l.foldl (fun acc t => match t.tradeType with
      | .sell => acc + t.plsAmount
      | .buy => acc - t.plsAmount) acc =
    acc + ((l.filter (fun t => t.tradeType == TradeType.sell)).map
            (fun t => t.plsAmount)).sum
        - ((l.filter (fun t => t.tradeType == TradeType.buy)).map
            (fun t => t.plsAmount)).sum := by
  induction l generalizing acc with
  | nil => simp
  | cons t ts ih =>
    rcases t with ⟨ta, ty, q, a, p, ts'⟩
    cases ty <;> simp [List.foldl, ih, List.filter_cons] <;> ring

/-- Helper: the daily and weekly windowed sums are invariant under a
permutation of the trades table — they are sums of the PLS amounts of
the in-window sells minus those of the in-window buys. -/
theorem netFlow_perm (l1 l2 : List Trade) (h : l1.Perm l2) (start : Int) :
    calculateDailyPnL l1 start = calculateDailyPnL l2 start ∧
    calculateWeeklyPnL l1 start = calculateWeeklyPnL l2 start := by
  have hsell : sellFlowSince l1 start = sellFlowSince l2 start := by
    unfold sellFlowSince getTradesSince
    exact List.Perm.sum_eq (((h.filter _).filter _).map _)
  have hbuy : buyFlowSince l1 start = buyFlowSince l2 start := by
    unfold buyFlowSince getTradesSince
    exact List.Perm.sum_eq (((h.filter _).filter _).map _)
  have d1 : calculateDailyPnL l1 start =
      sellFlowSince l1 start - buyFlowSince l1 start := by
    simpa [calculateDailyPnL, sellFlowSince, buyFlowSince]
      using netFlow_foldl (getTradesSince l1 start) 0
  have d2 : calculateDailyPnL l2 start =
      sellFlowSince l2 start - buyFlowSince l2 start := by
    simpa [calculateDailyPnL, sellFlowSince, buyFlowSince]
      using netFlow_foldl (getTradesSince l2 start) 0
  have w1 : calculateWeeklyPnL l1 start =
      sellFlowSince l1 start - buyFlowSince l1 start := by
    simpa [calculateWeeklyPnL, sellFlowSince, buyFlowSince]
      using netFlow_foldl (getTradesSince l1 start) 0
  have w2 : calculateWeeklyPnL l2 start =
      sellFlowSince l2 start - buyFlowSince l2 start := by
    simpa [calculateWeeklyPnL, sellFlowSince, buyFlowSince]
      using netFlow_foldl (getTradesSince l2 start) 0
  rw [d1, d2, w1, w2, hsell, hbuy]
  exact ⟨rfl, rfl⟩

/-- C7 (amended): the report is indeed invariant under permutations of
the input transfer list, but degenerately, not through any internal
sort or replay (none exists): the holdings table never changes, so the
position analysis is empty for every order, and the daily/weekly
windowed sums are order-independent sums over the same multiset of
inserted trade rows. -/
theorem report_permutation_invariant (wallet : String)
    (routers : List String) (start : Int) (ps : List PriceEntry) (d w : Int)
    (t1 t2 : List RawTransfer) (hperm : t1.Perm t2) :
    pipelineReport wallet routers start t1 ps d w =
      pipelineReport wallet routers start t2 ps d w := by
  have hh1 : (processTokenTransfers wallet routers start t1
      ⟨[], []⟩).holdings = [] := by
    simpa using processTokenTransfers_holdings wallet routers start t1
      ⟨[], []⟩
  have hh2 : (processTokenTransfers wallet routers start t2
      ⟨[], []⟩).holdings = [] := by
    simpa using processTokenTransfers_holdings wallet routers start t2
      ⟨[], []⟩
  have htr : (processTokenTransfers wallet routers start t1
      ⟨[], []⟩).trades.Perm
        (processTokenTransfers wallet routers start t2 ⟨[], []⟩).trades := by
    rw [processTokenTransfers_trades, processTokenTransfers_trades]
    simpa using hperm.filterMap (acceptedTrade wallet routers start)
  have hflow := netFlow_perm _ _ htr
  show calculateComprehensivePnL
      ⟨(processTokenTransfers wallet routers start t1 ⟨[], []⟩).holdings,
        (processTokenTransfers wallet routers start t1 ⟨[], []⟩).trades, ps⟩
      d w =
    calculateComprehensivePnL
      ⟨(processTokenTransfers wallet routers start t2 ⟨[], []⟩).holdings,
        (processTokenTransfers wallet routers start t2 ⟨[], []⟩).trades, ps⟩
      d w
  rw [hh1, hh2]
  simp [calculateComprehensivePnL, (hflow d).1, (hflow w).2]

/-- C7 (witness): swapping the buy and the sell transfer yields the
identical report. -/
theorem report_permutation_invariant_witness :
    pipelineReport "w" ["router"] 0 [transferBuy, transferSell] priceTokAt5
        0 0 =
      pipelineReport "w" ["router"] 0 [transferSell, transferBuy] priceTokAt5
        0 0 :=
  report_permutation_invariant "w" ["router"] 0 priceTokAt5 0 0
    [transferBuy, transferSell] [transferSell, transferBuy]
    (List.Perm.swap transferSell transferBuy [])

/-- C5 (amended): when no price row exists for a token, the calculator
treats the price as a real `0`: the position's unrealized PnL is the
full negated cost basis (a loss), there is no "price unavailable" flag
in the analysis object, and the aggregate total includes this value
rather than excluding the position. -/
theorem priceUnavailable_valued_at_zero (h : Holding) (ps : List PriceEntry)
    (trades : List Trade) (d w : Int)
    (hn : ps.find? (fun p => p.tokenAddress == h.tokenAddress) = none)
    (hb : ¬ h.currentBalance = 0) :
    (calculateTokenPnL ps h).unrealizedPnlPls =
      -Int.tdiv (h.currentBalance * h.averageBuyPricePls) scale ∧
    (calculateComprehensivePnL ⟨[h], trades, ps⟩ d w).totalUnrealizedPnlPls =
      -Int.tdiv (h.currentBalance * h.averageBuyPricePls) scale := by
  have hp : currentTokenPricePls ps h.tokenAddress = 0 := by
    simp [currentTokenPricePls, hn]
  constructor
  · simp [calculateTokenPnL, hp, Int.zero_tdiv]
  · simp [calculateComprehensivePnL, getHoldings, calculateTokenPnL, hp, hb,
      Int.zero_tdiv]

/-- C5 (witness): a holding with balance 100 at average buy price 2.0
and an empty price table reports unrealized PnL `-200`, included in the
aggregate total. -/
theorem priceUnavailable_valued_at_zero_witness :
    ((calculateTokenPnL [] heldHolding).unrealizedPnlPls =
      -Int.tdiv (heldHolding.currentBalance * heldHolding.averageBuyPricePls)
        scale ∧
    (calculateComprehensivePnL ⟨[heldHolding], [], []⟩ 0 0).totalUnrealizedPnlPls
      = -Int.tdiv (heldHolding.currentBalance * heldHolding.averageBuyPricePls)
        scale) ∧
    -Int.tdiv (heldHolding.currentBalance * heldHolding.averageBuyPricePls)
      scale = -200 :=
  ⟨priceUnavailable_valued_at_zero heldHolding [] [] 0 0 rfl (by decide),
    by decide⟩

/-- C6 (amended): the daily and weekly PnL are the net quote flow of
the trades with timestamp in `[windowStart, ∞)` — PLS received by sells
minus PLS spent by buys — not the sum of realized-PnL contributions of
in-window sells: buys move the value and cost basis never enters it. -/
theorem windowedPnL_is_net_quote_flow (trades : List Trade) (start : Int) :
    calculateDailyPnL trades start =
      sellFlowSince trades start - buyFlowSince trades start ∧
    calculateWeeklyPnL trades start =
      sellFlowSince trades start - buyFlowSince trades start := by
  constructor <;>
    simpa [calculateDailyPnL, calculateWeeklyPnL, sellFlowSince, buyFlowSince]
      using netFlow_foldl (getTradesSince trades start) 0

/-- C8 (amended): a record is rejected only when the external
PLS-amount lookup fails or yields the falsy `0n`; a self-transfer is
skipped only because the wallet address is not a DEX router; and a
record whose *token* amount is zero is not rejected — it still inserts
a trade row (with `pricePerTokenPls = 0`). Positions are unaffected by
every record, but trivially so: the holdings update throws on every
call. -/
theorem record_rejection_behavior (wallet : String) (routers : List String)
    (trackingStart : Int) (tr : RawTransfer) (st : DBState) (p : Int) :
    ((tr.plsLookup = none ∨ tr.plsLookup = some 0) →
      processTrade wallet tr st = st) ∧
    (¬ wallet ∈ routers → tr.sender = wallet → tr.receiver = wallet →
      processTokenTransfers wallet routers trackingStart [tr] st = st) ∧
    (tr.value = 0 → tr.plsLookup = some p → ¬ p = 0 →
      (processTrade wallet tr st).trades = st.trades ++ [tradeOf wallet tr p] ∧
      (processTrade wallet tr st).holdings = st.holdings ∧
      (tradeOf wallet tr p).tokenAmount = 0 ∧
      (tradeOf wallet tr p).pricePerTokenPls = 0) := by
  refine ⟨?_, ?_, ?_⟩
  · rintro (h | h) <;> simp [processTrade, h]
  · intro hw hs hr
    have hfalse : isTradeTransaction routers tr = false := by
      simp [isTradeTransaction, List.contains, hs, hr, List.elem_eq_mem, hw]
    show (if tr.timestamp < trackingStart then st
          else if isTradeTransaction routers tr then processTrade wallet tr st
          else st) = st
    simp [hfalse]
  · intro hv hp hp0
    refine ⟨?_, processTrade_holdings wallet tr st, ?_, ?_⟩
    · rw [processTrade_trades]
      simp [tradeIfAccepted, hp, hp0]
    · simp [tradeOf, hv]
    · simp [tradeOf, hv, calculatePricePerToken]

/-- C8 (witness): a transfer with PLS lookup `0n` leaves the state
unchanged; a self-transfer of wallet `"w"` (not a router) is skipped by
the transfer loop; and the zero-token-amount transfer inserts a
zero-priced trade row while the holdings stay empty. -/
theorem record_rejection_behavior_witness :
    processTrade "w" transferZeroPls ⟨[], []⟩ = ⟨[], []⟩ ∧
    processTokenTransfers "w" ["router"] 0 [transferSelf] ⟨[], []⟩ =
      ⟨[], []⟩ ∧
    ((processTrade "w" transferZeroToken ⟨[], []⟩).trades =
        [] ++ [tradeOf "w" transferZeroToken 5] ∧
      (processTrade "w" transferZeroToken ⟨[], []⟩).holdings = [] ∧
      (tradeOf "w" transferZeroToken 5).tokenAmount = 0 ∧
      (tradeOf "w" transferZeroToken 5).pricePerTokenPls = 0) :=
  ⟨(record_rejection_behavior "w" ["router"] 0 transferZeroPls ⟨[], []⟩ 0).1
      (Or.inr rfl),
    (record_rejection_behavior "w" ["router"] 0 transferSelf ⟨[], []⟩ 0).2.1
      (by decide) rfl rfl,
    (record_rejection_behavior "w" ["router"] 0 transferZeroToken ⟨[], []⟩
        5).2.2 rfl rfl (by decide)⟩

/-- Invariant step: one trade preserves "zero lifetime investment
implies zero stored average buy price". A buy recomputes the average
from the new totals (zero total gives average `0`); a sell changes
neither field. -/
theorem avg_zero_step (h : Holding) (t : Trade)
    (ih : h.totalBoughtPls = 0 → h.averageBuyPricePls = 0) :
    (applyTradeToHolding h t).totalBoughtPls = 0 →
    (applyTradeToHolding h t).averageBuyPricePls = 0 := by
  rcases t with ⟨ta, ty, q, a, p, ts⟩
  cases ty
  · intro h0
    simp [applyTradeToHolding] at h0 ⊢
    rw [h0]
    simp [calculateAverageBuyPrice, Int.zero_tdiv]
  · intro h0
    simp [applyTradeToHolding] at h0 ⊢
    exact ih h0

/-- Invariant over a whole trade history: a position reached from the
fresh row keeps "zero lifetime investment implies zero average". -/
theorem avg_zero_fold (trades : List Trade) (h : Holding)
    (ih : h.totalBoughtPls = 0 → h.averageBuyPricePls = 0) :
    (trades.foldl applyTradeToHolding h).totalBoughtPls = 0 →
    (trades.foldl applyTradeToHolding h).averageBuyPricePls = 0 := by
  induction trades generalizing h with
  | nil => exact ih
  | cons t ts ihl => exact ihl _ (avg_zero_step h t ih)

/-- C9: with zero total invested PLS, every percentage return of the
analysis is exactly `0`: the `totalInvested > 0n` guards return `0`
directly, the zero stored average (invariant above) makes the cost
basis zero so the `costBasis > 0n` guard also returns `0`, and
`calculateROI` is likewise guarded at a zero initial investment. All
divisions stay guarded, so no division-by-zero value is produced. -/
theorem zero_invested_percentages_are_zero (trades : List Trade)
    (addr : String) (ts0 : Int) (ps : List PriceEntry)
    (h0 : (trades.foldl applyTradeToHolding (freshHolding addr ts0)).totalBoughtPls
      = 0) :
    (calculateTokenPnL ps
      (trades.foldl applyTradeToHolding (freshHolding addr ts0))).realizedPercentage
        = 0 ∧
    (calculateTokenPnL ps
      (trades.foldl applyTradeToHolding (freshHolding addr ts0))).unrealizedPercentage
        = 0 ∧
    (calculateTokenPnL ps
      (trades.foldl applyTradeToHolding (freshHolding addr ts0))).totalPercentage
        = 0 ∧
    (∀ c : ℚ, calculateROI 0 c = 0) := by
  have havg := avg_zero_fold trades (freshHolding addr ts0)
    (fun _ => rfl) h0
  refine ⟨?_, ?_, ?_, fun c => by simp [calculateROI]⟩ <;>
    simp [calculateTokenPnL, h0, havg, Int.zero_tdiv]

/-- C9 (witness): a position with a single sell and no buy (airdropped
tokens) has zero total invested and nonzero realized PnL `30`, yet all
three percentage returns are `0`, as is the guarded ROI. -/
theorem zero_invested_percentages_are_zero_witness :
    ((calculateTokenPnL priceTokAt5
      ([sell10At3].foldl applyTradeToHolding (freshHolding "tok" 0))).realizedPercentage
        = 0 ∧
    (calculateTokenPnL priceTokAt5
      ([sell10At3].foldl applyTradeToHolding (freshHolding "tok" 0))).unrealizedPercentage
        = 0 ∧
    (calculateTokenPnL priceTokAt5
      ([sell10At3].foldl applyTradeToHolding (freshHolding "tok" 0))).totalPercentage
        = 0 ∧
    (∀ c : ℚ, calculateROI 0 c = 0)) ∧
    ([sell10At3].foldl applyTradeToHolding (freshHolding "tok" 0)).realizedPnlPls
      = 30 :=
  ⟨zero_invested_percentages_are_zero [sell10At3] "tok" 0 priceTokAt5
    (by decide), by decide⟩

end PnLTracker
